import Mathlib

/-!
Verification development for the flashcards question-session core
(`js/scripts.js`, `js/sheets.js`, `config/config.js`).

The mutable module-level state of `scripts.js` is embedded as an explicit
`AppState` record, and each state-mutating function of the source is embedded
as a pure state transformer.  DOM reads/writes, `localStorage`, toasts and
text-to-speech are external collaborators with no effect on the session state
and are omitted.  `Math.random()` draws are modelled by explicit `Nat`
parameters (`r` for a single draw, `rnd : Nat → Nat` for the per-iteration
draws of the Fisher–Yates loop); a JS draw `Math.floor(Math.random()*(n))`
is modelled as `r % n`.  JS array `push`/`pop` act on the end of the array;
the embedding keeps the stack top at the head of a Lean list.
-/

/-- A question record, with the fields read by the session core
(`transformSheetsData` in `js/sheets.js` / `MOCK_QUESTIONS`). -/
structure Question where
  id : Nat
  category : String
  subCategory : String
  question : String
  answer : String
  questionWithAsterisk : String
  civicsTestUpdates : String
deriving DecidableEq, Repr

/-- The `filters` object of `js/scripts.js`. -/
structure Filters where
  category : String
  subCategory : String
  bookmarked : String
  questionWithAsterisk : String
  civicsTestUpdates : String
  shuffleUnasked : Bool
deriving DecidableEq, Repr

/-- The module-level session state of `js/scripts.js`. -/
structure AppState where
  questions : List Question
  filteredQuestions : List Question
  currentIndex : Nat
  historyBack : List Nat
  historyForward : List Nat
  showAnswerFlag : Bool
  answeredQuestions : Finset Nat
  bookmarkedQuestions : Finset Nat
  filters : Filters

/-- The predicate of the `questions.filter` callback inside `applyFilters`
(`js/scripts.js` lines 370–377): a sequence of early-`false` returns, one per
filter dimension. -/
def passesFilters (f : Filters) (bookmarked : Finset Nat) (q : Question) : Bool :=
  if f.category ≠ "All" ∧ q.category ≠ f.category then false
  else if f.subCategory ≠ "All" ∧ q.subCategory ≠ f.subCategory then false
  else if f.bookmarked = "Bookmarked" ∧ q.id ∉ bookmarked then false
  else if f.questionWithAsterisk = "Yes" ∧ q.questionWithAsterisk ≠ "Yes" then false
  else if f.civicsTestUpdates = "Yes" ∧ q.civicsTestUpdates ≠ "Yes" then false
  else true

/-- One iteration of the `shuffleArray` loop body:
`[a[i],a[j]]=[a[j],a[i]]`.  Out-of-range indices leave the list unchanged
(unreachable in the source's loop). -/
def swapL (l : List α) (i j : Nat) : List α :=
  match l[i]?, l[j]? with
  | some a, some b => (l.set i b).set j a
  | _, _ => l

/-- The `for(let i=a.length-1;i>0;i--)` loop of `shuffleArray`
(`js/scripts.js` lines 555–558), descending on `i`; the fresh
`Math.random()` draw of iteration `i` is `rnd i % (i+1)`. -/
def fyLoop (rnd : Nat → Nat) (a : List α) : Nat → List α
  | 0 => a
  | k + 1 => fyLoop rnd (swapL a (k + 1) (rnd (k + 1) % (k + 2))) k

/-- `shuffleArray` (`js/scripts.js` lines 553–560): Fisher–Yates on a copy. -/
def shuffleArray (rnd : Nat → Nat) (arr : List α) : List α :=
  fyLoop rnd arr (arr.length - 1)

/-- `shuffleUnasked` (`js/scripts.js` lines 547–551). -/
def shuffleUnasked (rnd : Nat → Nat) (answered : Finset Nat)
    (list : List Question) : List Question :=
  let unasked := list.filter fun q => decide (q.id ∉ answered)
  let asked := list.filter fun q => decide (q.id ∈ answered)
  shuffleArray rnd unasked ++ asked

/-- `applyFilters` (`js/scripts.js` lines 369–393): recompute
`filteredQuestions`, optionally shuffle, keep `currentIndex` when the new
view still has an element at it (the `includes` test on an element just read
from the view), else reset to `0`; force `showAnswerFlag` to `false`;
`initHistory` re-seeds the history stacks. -/
def applyFilters (rnd : Nat → Nat) (s : AppState) : AppState :=
  let fq0 := s.questions.filter (passesFilters s.filters s.bookmarkedQuestions)
  let fq := if s.filters.shuffleUnasked then shuffleUnasked rnd s.answeredQuestions fq0 else fq0
  let newIndex :=
    if fq.length > 0 then
      match fq[s.currentIndex]? with
      | some q => if q ∈ fq then s.currentIndex else 0
      | none => 0
    else 0
  { s with filteredQuestions := fq, currentIndex := newIndex,
           showAnswerFlag := false,
           historyBack := [newIndex], historyForward := [] }

/-- `markAnswered` (`js/scripts.js` lines 521–524): the `if(q)` guard is the
`Option` match. -/
def markAnswered (q : Option Question) (s : AppState) : AppState :=
  match q with
  | some q => { s with answeredQuestions := insert q.id s.answeredQuestions }
  | none => s

/-- `toggleAnswer` (`js/scripts.js` lines 444–457). -/
def toggleAnswer (s : AppState) : AppState :=
  if s.filteredQuestions.length = 0 then s
  else
    let s1 := { s with showAnswerFlag := !s.showAnswerFlag }
    if s1.showAnswerFlag then markAnswered s1.filteredQuestions[s1.currentIndex]? s1
    else s1

/-- `nextQuestion` (`js/scripts.js` lines 462–497), the "RevealOrAdvance"
action.  `r` models the `Math.random()` draw of the shuffle branch. -/
def nextQuestion (r : Nat) (s : AppState) : AppState :=
  if !s.showAnswerFlag then toggleAnswer s
  else
    match s.historyForward with
    | f :: rest =>
      { s with historyBack := s.currentIndex :: s.historyBack,
               currentIndex := f, historyForward := rest, showAnswerFlag := false }
    | [] =>
      let back := s.currentIndex :: s.historyBack
      let newIndex :=
        if s.filters.shuffleUnasked then
          let unasked := s.filteredQuestions.filter fun q =>
            decide (q.id ∉ s.answeredQuestions)
          if h : unasked.length = 0 then
            (s.currentIndex + 1) % s.filteredQuestions.length
          else
            let randomQ := unasked.get ⟨r % unasked.length,
              Nat.mod_lt r (Nat.pos_of_ne_zero h)⟩
            s.filteredQuestions.findIdx fun q => q.id == randomQ.id
        else (s.currentIndex + 1) % s.filteredQuestions.length
      { s with historyBack := back, currentIndex := newIndex,
               historyForward := [], showAnswerFlag := false }

/-- `prevQuestion` (`js/scripts.js` lines 499–507), the "GoBack" action. -/
def prevQuestion (s : AppState) : AppState :=
  match s.historyBack with
  | [] => s
  | b :: rest =>
    { s with historyForward := s.currentIndex :: s.historyForward,
             historyBack := rest, currentIndex := b, showAnswerFlag := false }

/-- `validateCurrentQuestion` (`js/scripts.js` lines 509–519).  The source
reads fields of `filteredQuestions[currentIndex]` without a guard; callers
only reach the check with an in-bounds index (`applyFilters` guarantees it),
so the `none` branch is unreachable and modelled as the identity. -/
def validateCurrentQuestion (r : Nat) (isBackward : Bool) (s : AppState) : AppState :=
  if s.filteredQuestions.length = 0 then s
  else
    match s.filteredQuestions[s.currentIndex]? with
    | none => s
    | some q =>
      if (s.filters.bookmarked = "Bookmarked" ∧ q.id ∉ s.bookmarkedQuestions) ∨
         (s.filters.category ≠ "All" ∧ q.category ≠ s.filters.category) ∨
         (s.filters.subCategory ≠ "All" ∧ q.subCategory ≠ s.filters.subCategory) ∨
         (s.filters.questionWithAsterisk = "Yes" ∧ q.questionWithAsterisk ≠ "Yes") ∨
         (s.filters.civicsTestUpdates = "Yes" ∧ q.civicsTestUpdates ≠ "Yes") then
        if isBackward then prevQuestion s else nextQuestion r s
      else s

/-- `toggleBookmark` (`js/scripts.js` lines 139–155): the `if(!q) return`
guard is the `none` branch; otherwise flip membership, re-filter
(`saveBookmarks` and the icon update are external) and re-validate. -/
def toggleBookmark (r : Nat) (rnd : Nat → Nat) (s : AppState) : AppState :=
  match s.filteredQuestions[s.currentIndex]? with
  | none => s
  | some q =>
    let bm :=
      if q.id ∈ s.bookmarkedQuestions then s.bookmarkedQuestions.erase q.id
      else insert q.id s.bookmarkedQuestions
    let s1 := applyFilters rnd { s with bookmarkedQuestions := bm }
    validateCurrentQuestion r false s1

/-- The progress numbers rendered by `updateProgress`
(`js/scripts.js` lines 529–545). -/
structure ProgressStats where
  total : Nat
  answered : Nat
  percent : Nat
deriving DecidableEq, Repr

/-- Fuel-driven floor-log₂ on `Nat` (structural recursion, so the kernel can
evaluate it on literals). -/
def log2Aux : Nat → Nat → Nat
  | 0, _ => 0
  | fuel + 1, n => if 2 ≤ n then log2Aux fuel (n / 2) + 1 else 0

/-- `⌊log₂ n⌋` for `n ≥ 1` (0 for `n = 0`). -/
def natLog2 (n : Nat) : Nat :=
  log2Aux n n

/-- `⌈log₂ m⌉` for `m ≥ 1`: the least `k` with `m ≤ 2^k`. -/
def natClog2 (m : Nat) : Nat :=
  if m ≤ 1 then 0 else natLog2 (m - 1) + 1

/-- Round `n / d` (for `d > 0`) to the nearest integer, ties to even — the
IEEE-754 default rounding, applied below to values scaled into
`[2^52, 2^53)`. -/
def rheDiv (n d : Nat) : Nat :=
  let q := n / d
  let r := n % d
  if 2 * r < d then q
  else if d < 2 * r then q + 1
  else if q % 2 = 0 then q else q + 1

/-- `⌊log₂ (n/d)⌋` for `n, d ≥ 1`: for `n/d ≥ 1` it is `⌊log₂ (n/d)⌋` of the
integer quotient; for `n/d < 1` it is `-⌈log₂ ⌈d/n⌉⌉` (the `2^k` thresholds
are integral either way). -/
def fracFloorLog2 (n d : Nat) : Int :=
  if d ≤ n then (natLog2 (n / d) : Int)
  else -(natClog2 ((d + n - 1) / n) : Int)

/-- The IEEE-754 binary64 (double) value nearest to `n / d` (for `d > 0`),
returned as an exact dyadic pair `(m, p)` denoting `m * 2^p`: the quotient is
scaled into `[2^52, 2^53)`, its significand rounded half-to-even, and scaled
back.  Valid on the normal, non-overflowing range used here. -/
def dblOfFrac (n d : Nat) : Nat × Int :=
  if n = 0 then (0, 0)
  else
    let k : Int := 52 - fracFloorLog2 n d
    let m := if 0 ≤ k then rheDiv (n * 2 ^ k.toNat) d
             else rheDiv n (d * 2 ^ (-k).toNat)
    (m, -k)

/-- The double-precision product of the double `m * 2^p` with the exact
constant `100`: the exact product re-rounded to the nearest double. -/
def dblTimes100 (m : Nat) (p : Int) : Nat × Int :=
  if 0 ≤ p then dblOfFrac (m * 100 * 2 ^ p.toNat) 1
  else dblOfFrac (m * 100) (2 ^ (-p).toNat)

/-- `Math.round` of the non-negative finite double `m * 2^p`: the nearest
integer to its exact value, ties toward `+∞` (the ECMAScript operation
rounds the exact value of its argument, with no further double
arithmetic). -/
def jsRoundDyadic (m : Nat) (p : Int) : Nat :=
  if 0 ≤ p then m * 2 ^ p.toNat
  else (2 * m + 2 ^ (-p).toNat) / 2 ^ ((-p).toNat + 1)

/-- `updateProgress` (`js/scripts.js` lines 529–545).
`(answered / total) * 100` is evaluated by the source in IEEE-754 double
arithmetic: the quotient of the two (exactly representable) counts is rounded
once to the nearest double, the product with `100` is rounded again, and
`Math.round` takes the nearest integer of that exact value (ties up).  The
embedding performs both binary64 roundings exactly (`dblOfFrac`,
`dblTimes100`) on dyadic rationals; it is exact whenever both counts are at
most `2^53`, where every intermediate value is a normal, non-overflowing
double — a JS array length is below `2^32`, so the source cannot leave this
range. -/
def updateProgress (s : AppState) : ProgressStats :=
  let total := s.filteredQuestions.length
  let answered := s.answeredQuestions.card
  let percent :=
    if total ≠ 0 then
      let d1 := dblOfFrac answered total
      let d2 := dblTimes100 d1.1 d1.2
      jsRoundDyadic d2.1 d2.2
    else 0
  { total := total, answered := answered, percent := percent }

/-- A parsed bookmark-export payload, `{set, bookmarks}`
(`exportBookmarks`, `js/scripts.js` lines 214–236). -/
structure BookmarkImport where
  set : String
  bookmarks : List Nat
deriving DecidableEq, Repr

/-- The `x || "unknown"` defaulting applied to both the active sheet name and
the imported set name in `handleBookmarkImport`; the only falsy string is `""`. -/
def effectiveSetName (name : String) : String :=
  if name = "" then "unknown" else name

/-- `handleBookmarkImport` (`js/scripts.js` lines 238–276) after a successful
JSON parse and shape check: on set-name mismatch show an error toast and
return with no mutation; otherwise merge the ids and re-filter. -/
def handleBookmarkImport (rnd : Nat → Nat) (sheetName : String)
    (imported : BookmarkImport) (s : AppState) : AppState :=
  let currentSet := effectiveSetName sheetName
  let importedSet := effectiveSetName imported.set
  if importedSet ≠ currentSet then s
  else
    let s1 := { s with bookmarkedQuestions :=
      imported.bookmarks.foldl (fun bm i => insert i bm) s.bookmarkedQuestions }
    applyFilters rnd s1

/-- The question-loading chain of `initSheetsAndData`
(`js/scripts.js` lines 78–110): take the sheet result, fall back to the local
JSON when absent or empty, and finally to the built-in mock list. -/
def loadQuestions (sheetResult : Option (List Question))
    (localJson : Option (List Question)) (mock : List Question) : List Question :=
  let q1 := sheetResult.getD []
  let q2 := if q1.length = 0 then localJson.getD q1 else q1
  if q2.length = 0 then mock else q2

/-- Which `<select>` fired the `change` event handled by
`handleFilterChange` (`event.target.id`). -/
inductive FilterDim
  | category
  | subCategory
  | bookmarked
  | questionWithAsterisk
  | civicsTestUpdates
deriving DecidableEq, Repr

/-- The five `<select>` values read at the top of `handleFilterChange`. -/
structure FilterSelections where
  category : String
  subCategory : String
  bookmarked : String
  questionWithAsterisk : String
  civicsTestUpdates : String
deriving DecidableEq, Repr

/-- `handleFilterChange` (`js/scripts.js` lines 317–338): copy the five
select values into `filters`; when the event came from the category select,
force `subCategory` back to `"All"`; then `applyFilters`. -/
def handleFilterChange (rnd : Nat → Nat) (changed : FilterDim)
    (sel : FilterSelections) (s : AppState) : AppState :=
  let f1 : Filters :=
    { category := sel.category, subCategory := sel.subCategory,
      bookmarked := sel.bookmarked,
      questionWithAsterisk := sel.questionWithAsterisk,
      civicsTestUpdates := sel.civicsTestUpdates,
      shuffleUnasked := s.filters.shuffleUnasked }
  let f2 := if changed = FilterDim.category then { f1 with subCategory := "All" } else f1
  applyFilters rnd { s with filters := f2 }

/-! ### Permutation facts about the Fisher–Yates shuffle -/

theorem cons_set_perm {α : Type} (d : List α) (k : Nat) (a b : α)
    (hk : d[k]? = some b) : (b :: d.set k a).Perm (a :: d) := by
  obtain ⟨hlen, hb⟩ := List.getElem?_eq_some_iff.mp hk
  have hd : d = d.take k ++ b :: d.drop (k + 1) := by
    conv_lhs => rw [← List.take_append_drop k d]
    rw [List.drop_eq_getElem_cons hlen, hb]
  rw [List.set_eq_take_cons_drop a hlen]
  have p1 : (b :: (d.take k ++ a :: d.drop (k + 1))).Perm
      (b :: (a :: (d.take k ++ d.drop (k + 1)))) := List.perm_middle.cons b
  have p2 : (b :: (a :: (d.take k ++ d.drop (k + 1)))).Perm
      (a :: (b :: (d.take k ++ d.drop (k + 1)))) := List.Perm.swap a b _
  have p3 : (a :: (b :: (d.take k ++ d.drop (k + 1)))).Perm
      (a :: (d.take k ++ b :: d.drop (k + 1))) := (List.perm_middle.symm).cons a
  have p4 : (a :: (d.take k ++ b :: d.drop (k + 1))).Perm (a :: d) := by
    rw [← hd]
  exact ((p1.trans p2).trans p3).trans p4

theorem set_set_perm_lt {α : Type} (l : List α) (i j : Nat) (a b : α)
    (hij : i < j) (hi : l[i]? = some a) (hj : l[j]? = some b) :
    ((l.set i b).set j a).Perm l := by
  obtain ⟨hilen, hia⟩ := List.getElem?_eq_some_iff.mp hi
  obtain ⟨hjlen, _⟩ := List.getElem?_eq_some_iff.mp hj
  have hti : (l.take i).length = i := by
    simp [Nat.le_of_lt hilen]
  have hset1 : l.set i b = l.take i ++ b :: l.drop (i + 1) :=
    List.set_eq_take_cons_drop b hilen
  have hdk : (l.drop (i + 1))[j - i - 1]? = some b := by
    rw [List.getElem?_drop]
    have : i + 1 + (j - i - 1) = j := by omega
    rw [this, hj]
  have hstep : (l.set i b).set j a = l.take i ++ b :: (l.drop (i + 1)).set (j - i - 1) a := by
    rw [hset1, List.set_append_right _ _ (by omega)]
    congr 1
    have hji : j - (l.take i).length = (j - i - 1) + 1 := by omega
    rw [hji]
    rfl
  rw [hstep]
  have hmain : (b :: (l.drop (i + 1)).set (j - i - 1) a).Perm (a :: l.drop (i + 1)) :=
    cons_set_perm _ _ _ _ hdk
  have p1 : (l.take i ++ b :: (l.drop (i + 1)).set (j - i - 1) a).Perm
      (l.take i ++ a :: l.drop (i + 1)) := hmain.append_left _
  have p2 : l.take i ++ a :: l.drop (i + 1) = l := by
    rw [← hia, ← List.drop_eq_getElem_cons hilen, List.take_append_drop]
  have p3 : (l.take i ++ a :: l.drop (i + 1)).Perm l := by
    rw [p2]
  exact p1.trans p3

theorem set_getElem?_self {α : Type} (l : List α) (i : Nat) (a : α)
    (hi : l[i]? = some a) : l.set i a = l := by
  obtain ⟨hlen, ha⟩ := List.getElem?_eq_some_iff.mp hi
  rw [List.set_eq_take_cons_drop a hlen, ← ha, ← List.drop_eq_getElem_cons hlen,
    List.take_append_drop]

theorem swapL_perm {α : Type} (l : List α) (i j : Nat) : (swapL l i j).Perm l := by
  unfold swapL
  cases hi : l[i]? with
  | none => exact List.Perm.refl l
  | some a =>
    cases hj : l[j]? with
    | none => exact List.Perm.refl l
    | some b =>
      show ((l.set i b).set j a).Perm l
      rcases Nat.lt_trichotomy i j with h | h | h
      · exact set_set_perm_lt l i j a b h hi hj
      · subst h
        rw [hi] at hj
        cases hj
        rw [List.set_set, set_getElem?_self l i a hi]
      · rw [List.set_comm _ _ _ (by omega)]
        exact set_set_perm_lt l j i b a h hj hi

theorem fyLoop_perm {α : Type} (rnd : Nat → Nat) (n : Nat) :
    ∀ a : List α, (fyLoop rnd a n).Perm a := by
  induction n with
  | zero => intro a; exact List.Perm.refl a
  | succ k ih =>
    intro a
    exact (ih _).trans (swapL_perm a (k + 1) (rnd (k + 1) % (k + 2)))

theorem shuffleArray_perm {α : Type} (rnd : Nat → Nat) (arr : List α) :
    (shuffleArray rnd arr).Perm arr :=
  fyLoop_perm rnd (arr.length - 1) arr

/-! ### Sample data for witnesses and counterexamples -/

/-- A constant stream standing in for `Math.random()` draws. -/
def rnd0 : Nat → Nat := fun _ => 0

/-- The initial value of the `filters` literal in `js/scripts.js`. -/
def defaultFilters : Filters :=
  { category := "All", subCategory := "All", bookmarked := "All",
    questionWithAsterisk := "All", civicsTestUpdates := "All",
    shuffleUnasked := false }

def qGov1 : Question :=
  ⟨1, "American Government", "A: Principles of American Government",
    "1. What is the supreme law of the land?", "- the Constitution", "No", "No"⟩

def qGov2 : Question :=
  ⟨2, "American Government", "B: System of Government",
    "18. How many U.S. Senators are there?", "- one hundred (100)", "No", "No"⟩

def qHist3 : Question :=
  ⟨3, "American History", "A: Colonial Period and Independence",
    "59. Who lived in America before the Europeans arrived?",
    "- Native Americans", "No", "No"⟩

/-! ### C1 -/

/-- C1: with `shuffleUnasked` off, `applyFilters` returns exactly the input
records satisfying every active dimension predicate (dimensions set to
`"All"` are no-ops, conjoined by AND), in the input's relative order, and
with every dimension `"All"` it returns the input unchanged. -/
theorem applyFilters_filter_correct (rnd : Nat → Nat) (s : AppState)
    (hsh : s.filters.shuffleUnasked = false) :
    (applyFilters rnd s).filteredQuestions =
        s.questions.filter (passesFilters s.filters s.bookmarkedQuestions) ∧
    (∀ q ∈ (applyFilters rnd s).filteredQuestions,
        passesFilters s.filters s.bookmarkedQuestions q = true) ∧
    (∀ q ∈ s.questions, passesFilters s.filters s.bookmarkedQuestions q = true →
        q ∈ (applyFilters rnd s).filteredQuestions) ∧
    List.Sublist (applyFilters rnd s).filteredQuestions s.questions ∧
    (s.filters.category = "All" → s.filters.subCategory = "All" →
      s.filters.bookmarked = "All" → s.filters.questionWithAsterisk = "All" →
      s.filters.civicsTestUpdates = "All" →
      (applyFilters rnd s).filteredQuestions = s.questions) := by
  have key : (applyFilters rnd s).filteredQuestions =
      s.questions.filter (passesFilters s.filters s.bookmarkedQuestions) := by
    simp [applyFilters, hsh]
  refine ⟨key, ?_, ?_, ?_, ?_⟩
  · intro q hq
    rw [key] at hq
    exact List.of_mem_filter hq
  · intro q hq hp
    rw [key]
    exact List.mem_filter.mpr ⟨hq, hp⟩
  · rw [key]
    exact List.filter_sublist _
  · intro h1 h2 h3 h4 h5
    rw [key]
    apply List.filter_eq_self.mpr
    intro q _
    simp [passesFilters, h1, h2, h3, h4, h5]

def c1State : AppState :=
  { questions := [qGov1, qGov2, qHist3], filteredQuestions := [],
    currentIndex := 0, historyBack := [], historyForward := [],
    showAnswerFlag := false, answeredQuestions := ∅, bookmarkedQuestions := ∅,
    filters := { defaultFilters with category := "American Government" } }

/-- Witness for C1 at a concrete three-record state with an active
category filter. -/
theorem applyFilters_filter_correct_witness :
    c1State.filters.shuffleUnasked = false ∧
    ((applyFilters rnd0 c1State).filteredQuestions =
        c1State.questions.filter
          (passesFilters c1State.filters c1State.bookmarkedQuestions) ∧
    (∀ q ∈ (applyFilters rnd0 c1State).filteredQuestions,
        passesFilters c1State.filters c1State.bookmarkedQuestions q = true) ∧
    (∀ q ∈ c1State.questions,
        passesFilters c1State.filters c1State.bookmarkedQuestions q = true →
        q ∈ (applyFilters rnd0 c1State).filteredQuestions) ∧
    List.Sublist (applyFilters rnd0 c1State).filteredQuestions c1State.questions ∧
    (c1State.filters.category = "All" → c1State.filters.subCategory = "All" →
      c1State.filters.bookmarked = "All" →
      c1State.filters.questionWithAsterisk = "All" →
      c1State.filters.civicsTestUpdates = "All" →
      (applyFilters rnd0 c1State).filteredQuestions = c1State.questions)) :=
  ⟨rfl, applyFilters_filter_correct rnd0 c1State rfl⟩

/-! ### C2 -/

/-- C2: `shuffleUnasked` returns a permutation of its input whose tail
segment is exactly the answered records in their original relative order and
whose front segment is a permutation of the unanswered records. -/
theorem shuffleUnasked_partition (rnd : Nat → Nat) (answered : Finset Nat)
    (l : List Question) :
    (shuffleUnasked rnd answered l).Perm l ∧
    shuffleUnasked rnd answered l =
      shuffleArray rnd (l.filter fun q => decide (q.id ∉ answered)) ++
        l.filter (fun q => decide (q.id ∈ answered)) ∧
    (shuffleArray rnd (l.filter fun q => decide (q.id ∉ answered))).Perm
      (l.filter fun q => decide (q.id ∉ answered)) := by
  have hsplit : ((l.filter fun q => decide (q.id ∉ answered)) ++
      (l.filter fun q => decide (q.id ∈ answered))).Perm l := by
    have h := List.filter_append_perm (fun q => decide (q.id ∉ answered)) l
    simpa [decide_not] using h
  refine ⟨?_, rfl, shuffleArray_perm rnd _⟩
  exact ((shuffleArray_perm rnd _).append_right _).trans hsplit

/-! ### C3 -/

theorem nav_pair_step (r1 r2 : Nat) (s : AppState) (v : List Question) (i : Nat)
    (hv : v ≠ []) (hfq : s.filteredQuestions = v) (hidx : s.currentIndex = i)
    (hflag : s.showAnswerFlag = false) (hfwd : s.historyForward = [])
    (hsh : s.filters.shuffleUnasked = false) :
    (nextQuestion r1 s).filteredQuestions = v ∧
    (nextQuestion r1 s).currentIndex = i ∧
    (nextQuestion r1 s).showAnswerFlag = true ∧
    (nextQuestion r1 s).historyForward = [] ∧
    (nextQuestion r1 s).filters = s.filters ∧
    (∀ q, v[i]? = some q → q.id ∈ (nextQuestion r1 s).answeredQuestions) ∧
    (nextQuestion r2 (nextQuestion r1 s)).filteredQuestions = v ∧
    (nextQuestion r2 (nextQuestion r1 s)).currentIndex = (i + 1) % v.length ∧
    (nextQuestion r2 (nextQuestion r1 s)).showAnswerFlag = false ∧
    (nextQuestion r2 (nextQuestion r1 s)).historyForward = [] ∧
    (nextQuestion r2 (nextQuestion r1 s)).filters = s.filters := by
  have hlen : s.filteredQuestions.length ≠ 0 := by
    rw [hfq]
    simpa using hv
  have ht : nextQuestion r1 s =
      markAnswered s.filteredQuestions[s.currentIndex]?
        { s with showAnswerFlag := true } := by
    simp [nextQuestion, toggleAnswer, hflag, hlen]
  cases hq : s.filteredQuestions[s.currentIndex]? with
  | none =>
    rw [ht, hq]
    have hnone : v[i]? = none := by rw [← hfq, ← hidx]; exact hq
    constructor
    · simp [markAnswered, hfq]
    constructor
    · simp [markAnswered, hidx]
    constructor
    · simp [markAnswered]
    constructor
    · simp [markAnswered, hfwd]
    constructor
    · simp [markAnswered]
    constructor
    · intro q hq'
      rw [hnone] at hq'
      exact Option.noConfusion hq'
    · -- second call on the revealed state
      simp [markAnswered, nextQuestion, hfwd, hsh, hfq, hidx]
  | some q0 =>
    rw [ht, hq]
    have hsome : v[i]? = some q0 := by rw [← hfq, ← hidx]; exact hq
    constructor
    · simp [markAnswered, hfq]
    constructor
    · simp [markAnswered, hidx]
    constructor
    · simp [markAnswered]
    constructor
    · simp [markAnswered, hfwd]
    constructor
    · simp [markAnswered]
    constructor
    · intro q hq'
      rw [hsome] at hq'
      cases hq'
      simp [markAnswered]
    · simp [markAnswered, nextQuestion, hfwd, hsh, hfq, hidx]

theorem nav_inv (v : List Question) (s : AppState)
    (hv : v ≠ []) (hfq : s.filteredQuestions = v) (hidx : s.currentIndex = 0)
    (hflag : s.showAnswerFlag = false) (hfwd : s.historyForward = [])
    (hsh : s.filters.shuffleUnasked = false) (k : Nat) :
    ((nextQuestion 0)^[2 * k] s).filteredQuestions = v ∧
    ((nextQuestion 0)^[2 * k] s).currentIndex = k % v.length ∧
    ((nextQuestion 0)^[2 * k] s).showAnswerFlag = false ∧
    ((nextQuestion 0)^[2 * k] s).historyForward = [] ∧
    ((nextQuestion 0)^[2 * k] s).filters.shuffleUnasked = false := by
  induction k with
  | zero =>
    simp [hfq, hidx, hflag, hfwd, hsh]
  | succ k ih =>
    obtain ⟨h1, h2, h3, h4, h5⟩ := ih
    have hpair := nav_pair_step 0 0 ((nextQuestion 0)^[2 * k] s) v (k % v.length)
      hv h1 h2 h3 h4 h5
    have hiter : (nextQuestion 0)^[2 * (k + 1)] s =
        nextQuestion 0 (nextQuestion 0 ((nextQuestion 0)^[2 * k] s)) := by
      have h2k : 2 * (k + 1) = 2 * k + 1 + 1 := by ring
      rw [h2k, Function.iterate_succ_apply', Function.iterate_succ_apply']
    obtain ⟨_, _, _, _, _, _, g1, g2, g3, g4, g5⟩ := hpair
    refine ⟨by rw [hiter]; exact g1, ?_, by rw [hiter]; exact g3,
      by rw [hiter]; exact g4, by rw [hiter]; rw [g5]; exact h5⟩
    rw [hiter, g2, Nat.mod_add_mod]

/-- C3: from a non-empty view of size `N` with shuffle off, index `0` and the
answer hidden, the odd-numbered `nextQuestion` calls reveal in place (flag
set, current id marked answered, index unchanged) and the even-numbered calls
advance to `(index+1) % N` with the flag cleared, so `2N` calls walk the
indices `0,…,N-1` in ascending round-robin reveal-then-move pairs. -/
theorem nav_round_robin (v : List Question) (s : AppState)
    (hv : v ≠ []) (hfq : s.filteredQuestions = v) (hidx : s.currentIndex = 0)
    (hflag : s.showAnswerFlag = false) (hfwd : s.historyForward = [])
    (hsh : s.filters.shuffleUnasked = false) (k : Nat) :
    ((nextQuestion 0)^[2 * k] s).currentIndex = k % v.length ∧
    ((nextQuestion 0)^[2 * k] s).showAnswerFlag = false ∧
    (nextQuestion 0 ((nextQuestion 0)^[2 * k] s)).currentIndex = k % v.length ∧
    (nextQuestion 0 ((nextQuestion 0)^[2 * k] s)).showAnswerFlag = true ∧
    (v.map Question.id).getD (k % v.length) 0 ∈
      (nextQuestion 0 ((nextQuestion 0)^[2 * k] s)).answeredQuestions ∧
    (nextQuestion 0 (nextQuestion 0 ((nextQuestion 0)^[2 * k] s))).currentIndex =
      (k + 1) % v.length := by
  obtain ⟨h1, h2, h3, h4, h5⟩ := nav_inv v s hv hfq hidx hflag hfwd hsh k
  obtain ⟨_, g2, g3, _, _, g6, _, g8, _, _, _⟩ :=
    nav_pair_step 0 0 ((nextQuestion 0)^[2 * k] s) v (k % v.length) hv h1 h2 h3 h4 h5
  have hklt : k % v.length < v.length :=
    Nat.mod_lt k (List.length_pos.mpr hv)
  have hgd : (v.map Question.id).getD (k % v.length) 0 =
      (v.get ⟨k % v.length, hklt⟩).id := by
    rw [List.getD_eq_getElem?_getD, List.getElem?_map,
      List.getElem?_eq_getElem hklt]
    rfl
  refine ⟨h2, h3, g2, g3, ?_, by rw [g8, Nat.mod_add_mod]⟩
  rw [hgd]
  exact g6 _ (List.getElem?_eq_getElem hklt)

def c3State : AppState :=
  { questions := [qGov1, qGov2, qHist3], filteredQuestions := [qGov1, qGov2, qHist3],
    currentIndex := 0, historyBack := [0], historyForward := [],
    showAnswerFlag := false, answeredQuestions := ∅, bookmarkedQuestions := ∅,
    filters := defaultFilters }

/-- Witness for C3 on a concrete three-record view, at the second
reveal-and-advance pair. -/
theorem nav_round_robin_witness :
    ([qGov1, qGov2, qHist3] : List Question) ≠ [] ∧
    c3State.filteredQuestions = [qGov1, qGov2, qHist3] ∧
    c3State.currentIndex = 0 ∧ c3State.showAnswerFlag = false ∧
    c3State.historyForward = [] ∧ c3State.filters.shuffleUnasked = false ∧
    (((nextQuestion 0)^[2 * 1] c3State).currentIndex =
        1 % ([qGov1, qGov2, qHist3] : List Question).length ∧
      ((nextQuestion 0)^[2 * 1] c3State).showAnswerFlag = false ∧
      (nextQuestion 0 ((nextQuestion 0)^[2 * 1] c3State)).currentIndex =
        1 % ([qGov1, qGov2, qHist3] : List Question).length ∧
      (nextQuestion 0 ((nextQuestion 0)^[2 * 1] c3State)).showAnswerFlag = true ∧
      (([qGov1, qGov2, qHist3] : List Question).map Question.id).getD
          (1 % ([qGov1, qGov2, qHist3] : List Question).length) 0 ∈
        (nextQuestion 0 ((nextQuestion 0)^[2 * 1] c3State)).answeredQuestions ∧
      (nextQuestion 0 (nextQuestion 0 ((nextQuestion 0)^[2 * 1] c3State))).currentIndex =
        (1 + 1) % ([qGov1, qGov2, qHist3] : List Question).length) :=
  ⟨by decide, rfl, rfl, rfl, rfl, rfl,
    nav_round_robin [qGov1, qGov2, qHist3] c3State (by decide) rfl rfl rfl rfl rfl 1⟩


/-! ### C4 -/

theorem nextQuestion_fields (r : Nat) (s : AppState) (hflag : s.showAnswerFlag = true) :
    (nextQuestion r s).historyBack = s.currentIndex :: s.historyBack ∧
    (nextQuestion r s).showAnswerFlag = false ∧
    (nextQuestion r s).filteredQuestions = s.filteredQuestions := by
  cases hfwd : s.historyForward with
  | cons f rest => simp [nextQuestion, hflag, hfwd]
  | nil => simp [nextQuestion, hflag, hfwd]

theorem prevQuestion_cons (s : AppState) (b : Nat) (rest : List Nat)
    (h : s.historyBack = b :: rest) :
    prevQuestion s =
      { s with historyForward := s.currentIndex :: s.historyForward,
               historyBack := rest, currentIndex := b,
               showAnswerFlag := false } := by
  simp [prevQuestion, h]

def c4State : AppState :=
  { questions := [qGov1, qGov2], filteredQuestions := [qGov1, qGov2],
    currentIndex := 0, historyBack := [0], historyForward := [],
    showAnswerFlag := true, answeredQuestions := {1}, bookmarkedQuestions := ∅,
    filters := defaultFilters }

/-- C4 counterexample: with the answer revealed at index 0 of a two-record
view, `nextQuestion` advances to index 1; `prevQuestion` restores index 0
with the answer hidden; but the single following `nextQuestion` only
re-reveals in place (index stays 0), it does not restore index 1 as the
claim asserts. -/
theorem goBack_single_replay_counterexample :
    (nextQuestion 0 c4State).currentIndex = 1 ∧
    (prevQuestion (nextQuestion 0 c4State)).currentIndex = 0 ∧
    (prevQuestion (nextQuestion 0 c4State)).showAnswerFlag = false ∧
    (nextQuestion 0 (prevQuestion (nextQuestion 0 c4State))).currentIndex = 0 ∧
    (nextQuestion 0 (prevQuestion (nextQuestion 0 c4State))).currentIndex ≠
      (nextQuestion 0 c4State).currentIndex := by
  decide

/-- C4 amended: `prevQuestion` right after an index-changing `nextQuestion`
restores the prior index with the answer hidden; because the answer is then
hidden, the next `nextQuestion` re-reveals in place, and only the call after
that (the forward-replay) restores the index that was current before the
back-step. -/
theorem goBack_restores (r r1 r2 : Nat) (s : AppState)
    (hflag : s.showAnswerFlag = true) (hne : s.filteredQuestions ≠ []) :
    (prevQuestion (nextQuestion r s)).currentIndex = s.currentIndex ∧
    (prevQuestion (nextQuestion r s)).showAnswerFlag = false ∧
    (nextQuestion r1 (prevQuestion (nextQuestion r s))).currentIndex =
      s.currentIndex ∧
    (nextQuestion r2 (nextQuestion r1 (prevQuestion (nextQuestion r s)))).currentIndex =
      (nextQuestion r s).currentIndex := by
  have hlen : s.filteredQuestions.length ≠ 0 := by simpa using hne
  obtain ⟨hA, hB, hC⟩ := nextQuestion_fields r s hflag
  set t := nextQuestion r s with hts
  rw [prevQuestion_cons t s.currentIndex s.historyBack hA]
  refine ⟨rfl, rfl, ?_, ?_⟩
  · cases hq : s.filteredQuestions[s.currentIndex]? with
    | none => simp [nextQuestion, toggleAnswer, markAnswered, hC, hlen, hq]
    | some q0 => simp [nextQuestion, toggleAnswer, markAnswered, hC, hlen, hq]
  · cases hq : s.filteredQuestions[s.currentIndex]? with
    | none => simp [nextQuestion, toggleAnswer, markAnswered, hC, hlen, hq]
    | some q0 => simp [nextQuestion, toggleAnswer, markAnswered, hC, hlen, hq]

/-- Witness for the amended C4 at a concrete two-record state with the
answer revealed at index 0. -/
theorem goBack_restores_witness :
    c4State.showAnswerFlag = true ∧ c4State.filteredQuestions ≠ [] ∧
    ((prevQuestion (nextQuestion 0 c4State)).currentIndex = c4State.currentIndex ∧
     (prevQuestion (nextQuestion 0 c4State)).showAnswerFlag = false ∧
     (nextQuestion 0 (prevQuestion (nextQuestion 0 c4State))).currentIndex =
       c4State.currentIndex ∧
     (nextQuestion 0 (nextQuestion 0 (prevQuestion (nextQuestion 0 c4State)))).currentIndex =
       (nextQuestion 0 c4State).currentIndex) :=
  ⟨rfl, by decide, goBack_restores 0 0 0 c4State rfl (by decide)⟩

/-! ### C5 -/

def c5State : AppState :=
  { questions := [qGov1, qGov2], filteredQuestions := [qGov1],
    currentIndex := 0, historyBack := [0], historyForward := [],
    showAnswerFlag := false, answeredQuestions := {1, 2}, bookmarkedQuestions := ∅,
    filters := defaultFilters }

/-- C5 counterexample: with view `[qGov1]` and answered ids `{1, 2}`, the
reported `answered` is `2` — the size of the whole answered set — while the
count of view records with answered ids is `1`, so the claim's equality
fails. -/
theorem updateProgress_counts_counterexample :
    (updateProgress c5State).answered = 2 ∧
    (c5State.filteredQuestions.filter
      (fun q => decide (q.id ∈ c5State.answeredQuestions))).length = 1 ∧
    (updateProgress c5State).answered ≠
      (c5State.filteredQuestions.filter
        (fun q => decide (q.id ∈ c5State.answeredQuestions))).length := by
  decide

/-- The binary64 model reproduces the source's boundary behaviour: 23
answered of 40 displays 57 — `(23/40)*100` in doubles is
`57.4999999999999928…`, just below the tie — although exact half-up rounding
of `57.5` would give 58; a non-boundary input like 1 of 3 gives the expected
33. -/
theorem dblRound_boundary_example :
    jsRoundDyadic (dblTimes100 (dblOfFrac 23 40).1 (dblOfFrac 23 40).2).1
      (dblTimes100 (dblOfFrac 23 40).1 (dblOfFrac 23 40).2).2 = 57 ∧
    (200 * 23 + 40) / (2 * 40) = 58 ∧
    jsRoundDyadic (dblTimes100 (dblOfFrac 1 3).1 (dblOfFrac 1 3).2).1
      (dblTimes100 (dblOfFrac 1 3).1 (dblOfFrac 1 3).2).2 = 33 := by
  refine ⟨by decide, by decide, by decide⟩

/-- C5 amended: the stats report `total` = view length, `answered` = the size
of the whole answered-id set (not restricted to the view), and `percent` =
`Math.round((answered/total)*100)` evaluated in IEEE-754 double arithmetic
(quotient and product each rounded to nearest-even, then nearest integer with
ties up) when `total > 0`, else `0`. -/
theorem updateProgress_spec (s : AppState) :
    (updateProgress s).total = s.filteredQuestions.length ∧
    (updateProgress s).answered = s.answeredQuestions.card ∧
    (updateProgress s).percent =
      (if s.filteredQuestions.length = 0 then 0
       else
        jsRoundDyadic
          (dblTimes100 (dblOfFrac s.answeredQuestions.card s.filteredQuestions.length).1
            (dblOfFrac s.answeredQuestions.card s.filteredQuestions.length).2).1
          (dblTimes100 (dblOfFrac s.answeredQuestions.card s.filteredQuestions.length).1
            (dblOfFrac s.answeredQuestions.card s.filteredQuestions.length).2).2) := by
  refine ⟨rfl, rfl, ?_⟩
  by_cases h : s.filteredQuestions.length = 0 <;> simp [updateProgress, h]

/-! ### C6 -/

def qAst2 : Question :=
  ⟨2, "American Government", "B: System of Government",
    "27. In what month do we vote for President?*", "- November", "Yes", "No"⟩

def qAst3 : Question :=
  ⟨3, "American History", "A: Colonial Period and Independence",
    "63. When was the Declaration of Independence adopted?*",
    "- July 4, 1776", "Yes", "No"⟩

def c6State : AppState :=
  { questions := [qGov1, qAst2, qAst3], filteredQuestions := [qGov1, qAst2, qAst3],
    currentIndex := 1, historyBack := [0], historyForward := [],
    showAnswerFlag := false, answeredQuestions := ∅, bookmarkedQuestions := ∅,
    filters := { defaultFilters with questionWithAsterisk := "Yes" } }

/-- C6 counterexample: before the recompute the current record (index 1) is
`qAst2`; the new view is `[qAst2, qAst3]`, where `qAst2` sits at position 0,
but `applyFilters` keeps the numeric index 1 — now pointing at `qAst3` —
instead of following the record to position 0. -/
theorem applyFilters_index_counterexample :
    c6State.filteredQuestions[c6State.currentIndex]? = some qAst2 ∧
    (applyFilters rnd0 c6State).filteredQuestions = [qAst2, qAst3] ∧
    List.indexOf qAst2 (applyFilters rnd0 c6State).filteredQuestions = 0 ∧
    (applyFilters rnd0 c6State).currentIndex = 1 ∧
    (applyFilters rnd0 c6State).currentIndex ≠
      List.indexOf qAst2 (applyFilters rnd0 c6State).filteredQuestions := by
  decide

theorem keepIndex_eq (fq : List Question) (i : Nat) :
    (if fq.length > 0 then
      match fq[i]? with
      | some q => if q ∈ fq then i else 0
      | none => 0
     else 0) = if i < fq.length then i else 0 := by
  rcases Nat.lt_or_ge i fq.length with h | h
  · have hpos : fq.length > 0 := Nat.lt_of_le_of_lt (Nat.zero_le i) h
    rw [if_pos hpos, List.getElem?_eq_getElem h]
    simp [List.getElem_mem, h]
  · rw [List.getElem?_eq_none h]
    simp [Nat.not_lt.mpr h]

/-- C6 amended: after the view is recomputed, the numeric `currentIndex` is
kept whenever it is still within the bounds of the new view — regardless of
which record now occupies it — and is reset to 0 only when out of bounds
(in particular when the new view is empty). -/
theorem applyFilters_index_policy (rnd : Nat → Nat) (s : AppState) :
    (applyFilters rnd s).currentIndex =
      (if s.currentIndex < (applyFilters rnd s).filteredQuestions.length
       then s.currentIndex else 0) :=
  keepIndex_eq _ _

/-! ### C7 -/

def c7State : AppState :=
  { questions := [qGov1, qGov2, qHist3], filteredQuestions := [qGov1, qGov2, qHist3],
    currentIndex := 0, historyBack := [0], historyForward := [],
    showAnswerFlag := false, answeredQuestions := ∅, bookmarkedQuestions := {7},
    filters := defaultFilters }

/-- C7: a well-formed bookmark import whose (effective) set name differs from
the active data-set name is rejected before any mutation: the whole session
state — `bookmarkedQuestions` included — is returned untouched. -/
theorem bookmarkImport_mismatch_no_mutation (rnd : Nat → Nat) (sheetName : String)
    (imported : BookmarkImport) (s : AppState)
    (h : effectiveSetName imported.set ≠ effectiveSetName sheetName) :
    handleBookmarkImport rnd sheetName imported s = s := by
  simp [handleBookmarkImport, h]

/-- Witness for C7: importing `{"set":"2008","bookmarks":[2,5]}` while the
active set name is `"2020"` leaves the state — and its bookmarked ids —
unchanged. -/
theorem bookmarkImport_mismatch_no_mutation_witness :
    effectiveSetName (BookmarkImport.mk "2008" [2, 5]).set ≠
      effectiveSetName "2020" ∧
    handleBookmarkImport rnd0 "2020" (BookmarkImport.mk "2008" [2, 5]) c7State =
      c7State :=
  ⟨by decide,
    bookmarkImport_mismatch_no_mutation rnd0 "2020" (BookmarkImport.mk "2008" [2, 5])
      c7State (by decide)⟩

/-! ### C8 -/

def qDupA : Question :=
  ⟨7, "American Government", "B: System of Government", "duplicate A", "a", "No", "No"⟩

def qDupB : Question :=
  ⟨7, "American History", "A: Colonial Period and Independence",
    "duplicate B", "b", "No", "No"⟩

/-- C8 counterexample: two records share id 7, yet the load succeeds and
replaces the stored set wholesale with them — there is no duplicate-id check
and no `InvalidDataError` anywhere in the loading chain. -/
theorem load_accepts_duplicate_ids_counterexample :
    qDupA.id = qDupB.id ∧
    loadQuestions (some [qDupA, qDupB]) none [] = [qDupA, qDupB] := by
  decide

/-- C8 amended: the load never fails — a non-empty sheet result is taken
wholesale (duplicate ids included), an empty one falls back to the local
JSON and then to the built-in mock set, so the result is non-empty whenever
the mock list is. -/
theorem loadQuestions_fallback (sheetResult localJson : Option (List Question))
    (mock : List Question) :
    (∀ l, sheetResult = some l → l ≠ [] →
      loadQuestions sheetResult localJson mock = l) ∧
    (mock ≠ [] → loadQuestions sheetResult localJson mock ≠ []) := by
  constructor
  · intro l hl hne
    subst hl
    have hlen : l.length ≠ 0 := by simpa using hne
    simp [loadQuestions, hlen]
  · intro hm
    unfold loadQuestions
    by_cases h2 : (if (sheetResult.getD []).length = 0 then
        localJson.getD (sheetResult.getD []) else sheetResult.getD []).length = 0
    · simp only [h2, if_pos rfl]
      simpa using hm
    · simp only [if_neg h2]
      intro hcontra
      rw [hcontra] at h2
      simp at h2

/-- Witness for C8 amended: a non-empty sheet result wins, and the load
result is non-empty. -/
theorem loadQuestions_fallback_witness :
    loadQuestions (some [qGov1]) none [qGov2] = [qGov1] ∧
    loadQuestions (some [qGov1]) none [qGov2] ≠ [] :=
  ⟨(loadQuestions_fallback (some [qGov1]) none [qGov2]).1 [qGov1] rfl (by decide),
   (loadQuestions_fallback (some [qGov1]) none [qGov2]).2 (by decide)⟩

/-! ### C9 -/

/-- C9: whenever the changed dimension is the category select — whatever the
old and new values — `handleFilterChange` leaves `subCategory` at `"All"`,
even if a non-default subCategory was previously selected or is still the
select's value. -/
theorem categoryChange_resets_subCategory (rnd : Nat → Nat)
    (sel : FilterSelections) (s : AppState) :
    (handleFilterChange rnd FilterDim.category sel s).filters.subCategory = "All" := by
  simp [handleFilterChange, applyFilters]

/-! ### C10 -/

/-- C10: when the current index addresses no record (empty view or
out-of-range index), `toggleBookmark` returns the state unchanged — no
record field is read and no slice of the session state is mutated. -/
theorem toggleBookmark_noop (r : Nat) (rnd : Nat → Nat) (s : AppState)
    (h : s.filteredQuestions[s.currentIndex]? = none) :
    toggleBookmark r rnd s = s := by
  simp [toggleBookmark, h]

def c10State : AppState :=
  { questions := [qGov1], filteredQuestions := [], currentIndex := 0,
    historyBack := [], historyForward := [], showAnswerFlag := false,
    answeredQuestions := ∅, bookmarkedQuestions := ∅, filters := defaultFilters }

/-- Witness for C10 at a state whose filtered view is empty. -/
theorem toggleBookmark_noop_witness :
    c10State.filteredQuestions[c10State.currentIndex]? = none ∧
    toggleBookmark 0 rnd0 c10State = c10State :=
  ⟨rfl, toggleBookmark_noop 0 rnd0 c10State rfl⟩
